import Mathlib

/-!
Verification of the object-store and KVLM-codec core of `libwyag.py`
(MayankDabas/VersionControlSystem).

Python byte strings are embedded as `List Nat` (one entry per byte); the
handful of `bytes` / `str` / `os.path` operations that the source uses are
given explicit executable translations (`pyFind`, `pySlice`, `pyGet`, …)
that follow Python's indexing semantics (negative indices, clamping,
`-1` for a failed `find`).  Raised Python exceptions are embedded as the
`Except PyErr` monad.
-/

namespace Wyag

/-- A Python byte string: one `Nat` per byte. -/
abbrev Bytes := List Nat

/-- The Python exceptions (and one non-termination marker) that the
translated code can produce. -/
inductive PyErr where
  /-- `UnboundLocalError`: a local variable is read before assignment. -/
  | unboundLocalError
  /-- `KeyError`: dict subscript with a missing key. -/
  | keyError
  /-- `TypeError`: an operation applied to a value of the wrong type. -/
  | typeError
  /-- `AttributeError`: attribute access on a value lacking it. -/
  | attributeError
  /-- `AssertionError`: a failed `assert` statement. -/
  | assertionError
  /-- `IndexError`: sequence subscript out of range. -/
  | indexError
  /-- `ValueError`: `int()` applied to a non-numeric string. -/
  | valueError
  /-- `UnicodeDecodeError`: `.decode("ascii")` on a byte above 127. -/
  | unicodeDecodeError
  /-- `Exception(f"Malformed object : bad length")` from `object_read`. -/
  | exceptionMalformed
  /-- `Exception(f"Unknown type  for object ")` from `object_read`. -/
  | exceptionUnknownType
  /-- `Exception("Unimplemented!")` from the `GitObject` base class. -/
  | exceptionUnimplemented
  /-- `Exception(f"Not a directory ")` from `repo_dir`. -/
  | exceptionNotADirectory
  /-- Marker for exhausted fuel: models Python's `RecursionError` on deep
  recursion as well as genuine non-termination of the scanning loop. -/
  | nonTermination
  deriving DecidableEq, Repr

/-- First index of byte `b` in a byte list (`none` when absent). -/
def bfind0 (b : Nat) : Bytes → Option Nat
  | [] => none
  | c :: rest => if c = b then some 0 else (bfind0 b rest).map (· + 1)

/-- Normalize a Python start index for `find`/slicing: a negative index
counts from the end (clamped at 0), a positive one is clamped at `len`. -/
def pyIdx (len : Nat) (i : Int) : Nat :=
  if i < 0 then ((len : Int) + i).toNat else min i.toNat len

/-- Python `raw.find(bytes([b]), start)`: index of the first occurrence of
the single byte `b` at or after `start`, and `-1` when there is none. -/
def pyFind (raw : Bytes) (b : Nat) (start : Int) : Int :=
  let s := pyIdx raw.length start
  match bfind0 b (raw.drop s) with
  | some i => ((s + i : Nat) : Int)
  | none => -1

/-- Python slice `raw[i:j]` with Python's clamping / negative-index rules. -/
def pySlice (raw : Bytes) (i j : Int) : Bytes :=
  (raw.take (pyIdx raw.length j)).drop (pyIdx raw.length i)

/-- Python single-byte subscript `raw[i]`: yields the byte as an `int`, a
negative index counts from the end, out of range raises `IndexError`. -/
def pyGet (raw : Bytes) (i : Int) : Except PyErr Nat :=
  let j : Int := if i < 0 then (raw.length : Int) + i else i
  if 0 ≤ j ∧ j < (raw.length : Int) then .ok (raw.getD j.toNat 0)
  else .error .indexError

/-- ASCII decimal digit test. -/
def isDigit (c : Nat) : Bool := 48 ≤ c ∧ c ≤ 57

/-- Value of a string of ASCII decimal digits. -/
def decToNat (b : Bytes) : Nat := b.foldl (fun a c => a * 10 + (c - 48)) 0

/-- Python `int(b.decode("ascii"))` on the digit strings the store frames
carry: non-ASCII bytes fail to decode, anything but a nonempty run of
decimal digits fails to parse.  (Python's further accepted shapes —
surrounding whitespace, a sign, `_` separators — do not occur in frames
and are folded into `ValueError` here.) -/
def pyInt (b : Bytes) : Except PyErr Nat :=
  if b.any (fun c => 128 ≤ c) then .error .unicodeDecodeError
  else if b ≠ [] ∧ b.all isDigit then .ok (decToNat b)
  else .error .valueError

/-- Python `val.replace(b'\x0a', b'\x0a ')` used by `kvlm_serialize`
(line 686): write every newline as newline-plus-space. -/
def escapeNl : Bytes → Bytes
  | [] => []
  | 10 :: rest => 10 :: 32 :: escapeNl rest
  | c :: rest => c :: escapeNl rest

/-- Python `value.replace(b'\x0a ', b'\x0a')` used by `kvlm_parse`
(line 763): drop the space of every newline-space pair (left-to-right,
non-overlapping, as Python's `bytes.replace`). -/
def unescapeNl : Bytes → Bytes
  | [] => []
  | 10 :: 32 :: rest => 10 :: unescapeNl rest
  | c :: rest => c :: unescapeNl rest

/-- A Python runtime value as stored in the KVLM dict: the source puts
byte strings, `int`s (via `raw[start + 1]`, line 753) and lists of values
into it. -/
inductive PyVal where
  | pybytes (b : Bytes)
  | pyint (n : Nat)
  | pylist (vs : List PyVal)

/-- The KVLM structure: a `collections.OrderedDict` whose keys are field
names (`some name`) or the reserved message key Python `None` (`none`),
embedded as an insertion-ordered association list with distinct keys. -/
abbrev Kvlm := List (Option Bytes × PyVal)

/-- `d[k]` lookup on the ordered dict (`none` when the key is absent). -/
def dictFind : Kvlm → Option Bytes → Option PyVal
  | [], _ => none
  | (k, v) :: rest, key => if k = key then some v else dictFind rest key

/-- `d[k] = v` on the ordered dict: overwrite in place (keeping the key's
insertion position, as `OrderedDict` does) or append a new key at the end. -/
def dictSet : Kvlm → Option Bytes → PyVal → Kvlm
  | [], key, v => [(key, v)]
  | (k, v') :: rest, key, v =>
      if k = key then (key, v) :: rest else (k, v') :: dictSet rest key v

/-- The `while True` scan of `kvlm_parse` (lines 757-761):
`end = raw.find(b'\x0a', end + 1)` repeatedly, stopping at the first
newline not followed by a space; `raw[end + 1]` may raise `IndexError`.
Fueled because the loop diverges when no newline remains and `raw[0]` is
a space. -/
def findValueEnd : Nat → Bytes → Int → Except PyErr Int
  | 0, _, _ => .error .nonTermination
  | Nat.succ fuel, raw, e =>
    let e2 := pyFind raw 10 (e + 1)
    match pyGet raw (e2 + 1) with
    | .error err => .error err
    | .ok c => if c ≠ 32 then .ok e2 else findValueEnd fuel raw e2

/-- `kvlm_parse(raw, start, _dict)` (lines 691-773), fueled for the
recursive calls.  Faithful to the source, including its slips: the
message branch asserts `new_line == start` and then stores the single
byte `raw[start + 1]` (an `int`, not a slice) under the `None` key. -/
def kvlm_parse : Nat → Bytes → Int → Kvlm → Except PyErr Kvlm
  | 0, _, _, _ => .error .nonTermination
  | Nat.succ fuel, raw, start, d =>
    let space := pyFind raw 32 start
    let nl := pyFind raw 10 start
    if space < 0 ∨ nl < space then
      -- `assert new_line == start` then `_dict[None] = raw[start + 1]`
      if nl ≠ start then .error .assertionError
      else
        match pyGet raw (start + 1) with
        | .error e => .error e
        | .ok c => .ok (dictSet d none (.pyint c))
    else
      let key := pySlice raw start space
      match findValueEnd (Nat.succ fuel) raw start with
      | .error e => .error e
      | .ok e =>
        let value := unescapeNl (pySlice raw (space + 1) e)
        let d' :=
          match dictFind d (some key) with
          | some (.pylist vs) => dictSet d (some key) (.pylist (vs ++ [.pybytes value]))
          | some v => dictSet d (some key) (.pylist [v, .pybytes value])
          | none => dictSet d (some key) (.pybytes value)
        kvlm_parse fuel raw (e + 1) d'

/-- One header line `key + b' ' + val.replace(b'\x0a', b'\x0a ') + b'\x0a'`
(line 686); calling `.replace` on a non-bytes value raises
`AttributeError`. -/
def serializeVal (key : Bytes) : PyVal → Except PyErr Bytes
  | .pybytes b => .ok (key ++ 32 :: (escapeNl b ++ [10]))
  | _ => .error .attributeError

/-- The inner `for val in value` loop of `kvlm_serialize` (lines 685-686). -/
def serializeVals (key : Bytes) : List PyVal → Except PyErr Bytes
  | [] => .ok []
  | v :: rest =>
    match serializeVal key v with
    | .error e => .error e
    | .ok line =>
      match serializeVals key rest with
      | .error e => .error e
      | .ok more => .ok (line ++ more)

/-- The outer `for key in kvlm.keys()` loop of `kvlm_serialize`
(lines 677-686): the `None` key is skipped, a non-list value is wrapped
into a singleton list. -/
def headerLines : Kvlm → Except PyErr Bytes
  | [] => .ok []
  | (none, _) :: rest => headerLines rest
  | (some k, v) :: rest =>
    let vals : List PyVal := match v with | .pylist vs => vs | u => [u]
    match serializeVals k vals with
    | .error e => .error e
    | .ok lines =>
      match headerLines rest with
      | .error e => .error e
      | .ok more => .ok (lines ++ more)

/-- `kvlm_serialize(kvlm)` (lines 621-689), faithful to the source
including its slip: line 688 reads `obj = b'\x0a' + kvlm[None] + b'\x0a'`
— a rebinding, not `+=` — so the header bytes built by the loop are
discarded (though exceptions the loop raises still propagate), and
`kvlm[None]` raises `KeyError` when the message key is absent and
`TypeError` when its value is not a byte string. -/
def kvlm_serialize (kvlm : Kvlm) : Except PyErr Bytes :=
  match headerLines kvlm with
  | .error e => .error e
  | .ok _obj =>
    match dictFind kvlm none with
    | none => .error .keyError
    | some (.pybytes m) => .ok (10 :: (m ++ [10]))
    | some _ => .error .typeError

/-- `GitCommit.init()` (lines 241-242): the empty KVLM dict. -/
def GitCommit_init : Kvlm := []

/-- The byte string `b'blob'`. -/
def tokBlob : Bytes := [98, 108, 111, 98]

/-- The byte string `b'commit'`. -/
def tokCommit : Bytes := [99, 111, 109, 109, 105, 116]

/-- The byte string `b'tree'`. -/
def tokTree : Bytes := [116, 114, 101, 101]

/-- The byte string `b'tag'`. -/
def tokTag : Bytes := [116, 97, 103]

/-- A materialized `GitObject`: `GitBlob` holds whatever was assigned to
`blobdata` (a byte string when user-constructed, an `int` when produced
by `object_read`, which passes `raw[y + 1]`), `GitCommit` holds its KVLM
dict, `GitTree` / `GitTag` carry no state (their class bodies are
`pass`). -/
inductive GitObj where
  | blob (blobdata : PyVal)
  | commit (kvlm : Kvlm)
  | tree
  | tag

/-- The filesystem under the repository's `.git` directory: the set of
existing directories and the existing files with their contents, all
paths relative to `gitdir`.  File contents are the literal on-disk
bytes. -/
structure FS where
  dirs : List String
  files : List (String × Bytes)

/-- Content of the file at `p`, when one exists. -/
def lookupFile (fs : FS) (p : String) : Option Bytes :=
  (fs.files.find? (fun e => e.1 = p)).map (fun e => e.2)

/-- `repo_dir(repo, ...)` with `mkdir=False` (lines 267-294): the path if
it is an existing directory, `None` if nothing exists there, and
`Exception(f"Not a directory ")` if a non-directory file sits there. -/
def repo_dir (fs : FS) (p : String) : Except PyErr (Option String) :=
  if fs.dirs.contains p then .ok (some p)
  else if (fs.files.map (fun e => e.1)).contains p then .error .exceptionNotADirectory
  else .ok none

/-- The directory component `objects/<sha[0:2]>` of the storage path
(`repo_file(repo, "objects", sha[0:2], sha[2:])`, line 446). -/
def dirFor (sha : String) : String := "objects/" ++ sha.take 2

/-- The two-level storage path `objects/<sha[0:2]>/<sha[2:]>`. -/
def pathFor (sha : String) : String :=
  "objects/" ++ sha.take 2 ++ "/" ++ sha.drop 2

/-- `zlib.decompress`: DEFLATE is a lossless stage-inverse pair that the
claims never observe on its compressed side, so it is modelled as the
identity on the stored bytes. -/
def zlib_decompress (b : Bytes) : Bytes := b

/-- The class chosen by the `match object_type` dispatch of `object_read`
(lines 462-468). -/
inductive GitClass where
  | blobC
  | commitC
  | treeC
  | tagC
  deriving DecidableEq, Repr

/-- The `match object_type` dispatch (lines 462-468): `none` means the
`case _` arm, which raises `Unknown type`. -/
def objClassFor (t : Bytes) : Option GitClass :=
  if t = tokCommit then some .commitC
  else if t = tokTree then some .treeC
  else if t = tokTag then some .tagC
  else if t = tokBlob then some .blobC
  else none

/-- The `case _` arm of the dispatch (line 468):
`raise Exception(f"Unknown type {object_type.decode("ascii")} for object {sha}")`.
The f-string evaluates `object_type.decode("ascii")` before the
`Exception` is constructed, so a token containing a byte above 127
raises `UnicodeDecodeError` instead of the `Unknown type` exception. -/
def unknownTypeRaise (object_type : Bytes) : PyErr :=
  if object_type.any (fun c => 128 ≤ c) then .unicodeDecodeError
  else .exceptionUnknownType

/-- `c(raw[y + 1])` (line 470): `GitObject.__init__` sees `data != None`
and calls `deserialize(data)` where `data` is the single `int`
`raw[y + 1]`.  `GitBlob.deserialize` stores it; `GitCommit.deserialize`
calls `kvlm_parse(data, ...)` whose first step `raw.find(...)` is an
attribute access on an `int` and raises `AttributeError`; `GitTree` and
`GitTag` inherit the base `deserialize`, which raises
`Exception("Unimplemented!")`. -/
def constructObj (c : GitClass) (db : Nat) : Except PyErr GitObj :=
  match c with
  | .blobC => .ok (.blob (.pyint db))
  | .commitC => .error .attributeError
  | .treeC => .error .exceptionUnimplemented
  | .tagC => .error .exceptionUnimplemented

/-- `object_read(repo, sha)` (lines 410-470).  `repo_file` returns `None`
when the directory `objects/<sha[0:2]>` does not exist, and
`os.path.isfile(None)` then raises `TypeError` (uncaught, since
`genericpath.isfile` only swallows `OSError` and `ValueError`).  A
missing file yields Python `None`, embedded as `.ok none`.  Otherwise
the file is inflated and the frame parsed: first space, first NUL after
it, decimal length, length check (`bad length`), type dispatch (whose
failing arm decodes the token before raising, see `unknownTypeRaise`),
then `c(raw[y + 1])`. -/
def object_read (fs : FS) (sha : String) : Except PyErr (Option GitObj) :=
  match repo_dir fs (dirFor sha) with
  | .error e => .error e
  | .ok none => .error .typeError
  | .ok (some _) =>
    match lookupFile fs (pathFor sha) with
    | none => .ok none
    | some fileBytes =>
      let raw := zlib_decompress fileBytes
      let x := pyFind raw 32 0
      let object_type := pySlice raw 0 x
      let y := pyFind raw 0 x
      match pyInt (pySlice raw (x + 1) y) with
      | .error e => .error e
      | .ok size =>
        if (size : Int) ≠ (raw.length : Int) - y - 1 then .error .exceptionMalformed
        else
          match objClassFor object_type with
          | none => .error (unknownTypeRaise object_type)
          | some c =>
            match pyGet raw (y + 1) with
            | .error e => .error e
            | .ok db => (constructObj c db).map some

/-- `obj.serialize()` as called on line 510: `GitBlob.serialize` returns
`self.blobdata` unchanged (whatever runtime value it holds) and
`GitCommit.serialize` delegates to `kvlm_serialize` — both override with
a `(self)`-only signature.  `GitTree` / `GitTag` inherit the base
`serialize(self, repo)` (line 121), so the zero-argument call on
line 510 raises `TypeError` (missing positional argument `repo`) before
the `Unimplemented!` body could run. -/
def obj_serialize : GitObj → Except PyErr PyVal
  | .blob d => .ok d
  | .commit k =>
    match kvlm_serialize k with
    | .error e => .error e
    | .ok b => .ok (.pybytes b)
  | .tree => .error .typeError
  | .tag => .error .typeError

/-- `object_write(obj, repo)` (lines 472-522).  After line 510 evaluates
`obj.serialize()`, line 512 reads
`object_format = object_format.object_type + ...`: the right-hand side
mentions the local variable `object_format` being assigned, which is not
yet bound, so the call raises `UnboundLocalError` (there is no module
global of that name).  Lines 513-522 — the SHA-1, the optional
`repo_file(..., mkdir=True)` lookup and the compressed write — are
unreachable. -/
def object_write (obj : GitObj) (repo : Option FS) : Except PyErr String :=
  match obj_serialize obj with
  | .error e => .error e
  | .ok _data => .error .unboundLocalError

/-- `object_find(repo, name, object_type, follow)` (lines 524-550): the
explicit pass-through stub. -/
def object_find (name : String) : String := name

/-- Value shapes the source documents for a KVLM dict: byte strings or
lists of byte strings (`GitCommit` docstring, lines 216-220). -/
def isBytesVal : PyVal → Bool
  | .pybytes _ => true
  | _ => false

/-- A value that is a byte string or a list of byte strings. -/
def wellTypedVal : PyVal → Bool
  | .pybytes _ => true
  | .pylist vs => vs.all isBytesVal
  | .pyint _ => false

/-! ### Concrete inputs used by the claims -/

/-- The payload `b'hello world\x0a'` of the spec's concrete vector A
(12 bytes). -/
def helloWorldBytes : Bytes := [104, 101, 108, 108, 111, 32, 119, 111, 114, 108, 100, 10]

/-- The wire input of the spec's concrete vector B:
`tree T`, `parent P1`, `parent P2`, blank line, `msg`, each
newline-terminated. -/
def vecB : Bytes :=
  [116, 114, 101, 101, 32, 84, 10,
   112, 97, 114, 101, 110, 116, 32, 80, 49, 10,
   112, 97, 114, 101, 110, 116, 32, 80, 50, 10,
   10,
   109, 115, 103, 10]

/-- The field name `b'parent'`. -/
def kParent : Bytes := [112, 97, 114, 101, 110, 116]

/-- A two-entry KVLM document: field `tree` bound to `b'T'` and the
message `b'msg'`. -/
def exDocTM : Kvlm := [(some tokTree, .pybytes [84]), (none, .pybytes [109, 115, 103])]

/-- A stored frame `b'xyz 1\x00ab'`: unknown type token `xyz` AND a
declared length (1) that disagrees with the payload length (2). -/
def frameBad : Bytes := [120, 121, 122, 32, 49, 0, 97, 98]

/-- A store holding `frameBad` under hash `abzz`. -/
def fsC6 : FS := ⟨["objects/ab"], [("objects/ab/zz", frameBad)]⟩

/-- A stored frame `b'\xff 1\x00a'`: an out-of-set type token containing
a byte above 127, with a declared length that matches the payload. -/
def frameFF : Bytes := [255, 32, 49, 0, 97]

/-- A store holding `frameFF` under hash `efyy`. -/
def fsFF : FS := ⟨["objects/ef"], [("objects/ef/yy", frameFF)]⟩

/-- A store with no directories and no files. -/
def fsEmpty : FS := ⟨[], []⟩

/-- A well-formed stored frame `b'tree 1\x00a'` for a tree object. -/
def frameTree : Bytes := tokTree ++ [32, 49, 0, 97]

/-- A store holding `frameTree` under hash `cdxx`. -/
def fsTree : FS := ⟨["objects/cd"], [("objects/cd/xx", frameTree)]⟩

/-! ### Supporting lemmas -/

theorem bfind0_of_notMem {b : Nat} {l : Bytes} (h : b ∉ l) : bfind0 b l = none := by
  induction l with
  | nil => rfl
  | cons c rest ih =>
    rw [List.mem_cons, not_or] at h
    simp [bfind0, Ne.symm h.1, ih h.2]

theorem bfind0_append {b : Nat} {l1 l2 : Bytes} (h : b ∉ l1) :
    bfind0 b (l1 ++ b :: l2) = some l1.length := by
  induction l1 with
  | nil => simp [bfind0]
  | cons c rest ih =>
    rw [List.mem_cons, not_or] at h
    simp [bfind0, Ne.symm h.1, ih h.2]

theorem pyIdx_zero (len : Nat) : pyIdx len 0 = 0 := by
  simp [pyIdx]

theorem pyIdx_natCast (len n : Nat) (h : n ≤ len) : pyIdx len (n : Int) = n := by
  unfold pyIdx
  rw [if_neg (by omega)]
  omega

theorem pyFind_frame_space {tok rest : Bytes} (h : 32 ∉ tok) :
    pyFind (tok ++ 32 :: rest) 32 0 = (tok.length : Int) := by
  simp [pyFind, pyIdx_zero, bfind0_append h]

theorem pyFind_frame_nul {tok ds payload : Bytes} (hdig : ∀ c ∈ ds, 48 ≤ c ∧ c ≤ 57) :
    pyFind (tok ++ 32 :: (ds ++ 0 :: payload)) 0 (tok.length : Int) =
      ((tok.length + (ds.length + 1) : Nat) : Int) := by
  have h0 : (0 : Nat) ∉ ds := fun hm => by have := hdig 0 hm; omega
  have hle : tok.length ≤ (tok ++ 32 :: (ds ++ 0 :: payload)).length := by
    simp only [List.length_append]; omega
  unfold pyFind
  rw [pyIdx_natCast _ _ hle]
  simp [List.drop_left, bfind0, bfind0_append h0]

theorem pySlice_take_prefix (l1 l2 : Bytes) :
    pySlice (l1 ++ l2) 0 (l1.length : Int) = l1 := by
  unfold pySlice
  rw [pyIdx_natCast _ _ (by simp only [List.length_append]; omega), pyIdx_zero]
  simp [List.take_left]

theorem pySlice_frame_digits (tok ds rest : Bytes) :
    pySlice (tok ++ 32 :: (ds ++ rest)) ((tok.length : Int) + 1)
      ((tok.length + (ds.length + 1) : Nat) : Int) = ds := by
  unfold pySlice
  have h1 : ((tok.length : Int) + 1) = ((tok.length + 1 : Nat) : Int) := by push_cast; ring
  have hlen : (tok ++ 32 :: (ds ++ rest)).length = tok.length + 1 + ds.length + rest.length := by
    simp only [List.length_append, List.length_cons]
    omega
  have hA : pyIdx (tok ++ 32 :: (ds ++ rest)).length ((tok.length + 1 : Nat) : Int) =
      tok.length + 1 := pyIdx_natCast _ _ (by omega)
  have hB : pyIdx (tok ++ 32 :: (ds ++ rest)).length
      ((tok.length + (ds.length + 1) : Nat) : Int) = tok.length + (ds.length + 1) :=
    pyIdx_natCast _ _ (by omega)
  rw [h1, hA, hB]
  have e1 : tok ++ 32 :: (ds ++ rest) = ((tok ++ [32]) ++ ds) ++ rest := by simp
  have htk : ((tok ++ [32]) ++ ds).length = tok.length + (ds.length + 1) := by
    simp only [List.length_append, List.length_cons, List.length_nil]
    omega
  rw [e1, List.take_left' htk]
  exact List.drop_left' (by simp)

theorem pyGet_at_append (l1 l2 : Bytes) :
    pyGet (l1 ++ l2) (l1.length : Int) =
      (match l2 with
       | [] => Except.error PyErr.indexError
       | c :: _ => Except.ok c) := by
  unfold pyGet
  have hneg : ¬ ((l1.length : Int) < 0) := by omega
  simp only [if_neg hneg]
  cases l2 with
  | nil =>
    rw [if_neg (by simp only [List.append_nil]; omega)]
  | cons c rest =>
    rw [if_pos (by refine ⟨by omega, ?_⟩
                   simp only [List.length_append, List.length_cons]
                   omega)]
    have hj : ((l1.length : Int)).toNat = l1.length := by omega
    rw [hj, List.getD_append_right _ _ _ _ (le_refl _)]
    simp

theorem pyInt_digits {ds : Bytes} (hne : ds ≠ []) (hdig : ∀ c ∈ ds, 48 ≤ c ∧ c ≤ 57) :
    pyInt ds = .ok (decToNat ds) := by
  have hany : ds.any (fun c => decide (128 ≤ c)) = false := by
    rw [List.any_eq_false]
    intro c hc
    have := hdig c hc
    simp only [decide_eq_true_eq]
    omega
  have hall : ds.all isDigit = true := by
    rw [List.all_eq_true]
    intro c hc
    have := hdig c hc
    simp only [isDigit, decide_eq_true_eq]
    omega
  simp [pyInt, hany, hall, hne]

theorem objClassFor_none_iff (t : Bytes) :
    objClassFor t = none ↔ t ∉ [tokBlob, tokCommit, tokTree, tokTag] := by
  unfold objClassFor
  by_cases h1 : t = tokCommit
  · subst h1; simp [tokCommit, tokBlob, tokTree, tokTag]
  · by_cases h2 : t = tokTree
    · subst h2; simp [tokCommit, tokBlob, tokTree, tokTag]
    · by_cases h3 : t = tokTag
      · subst h3; simp [tokCommit, tokBlob, tokTree, tokTag]
      · by_cases h4 : t = tokBlob
        · subst h4; simp [tokCommit, tokBlob, tokTree, tokTag]
        · simp [h1, h2, h3, h4]

/-- Evaluation of `object_read` on an existing file holding a frame with
a well-formed header `<tok> <digits>\x00<payload>`: if the declared
decimal length disagrees with the payload length the read fails with the
`bad length` error; otherwise the type dispatch runs (its failing arm
raising per `unknownTypeRaise`), and a known class is constructed from
the single byte `raw[y + 1]` (an `IndexError` when the payload is
empty). -/
theorem object_read_frame (fs : FS) (sha : String) (tok ds payload : Bytes)
    (hdir : fs.dirs.contains (dirFor sha) = true)
    (hfile : lookupFile fs (pathFor sha) = some (tok ++ 32 :: (ds ++ 0 :: payload)))
    (htok : 32 ∉ tok) (hne : ds ≠ []) (hdig : ∀ c ∈ ds, 48 ≤ c ∧ c ≤ 57) :
    object_read fs sha =
      (if decToNat ds ≠ payload.length then .error .exceptionMalformed
       else
        match objClassFor tok with
        | none => .error (unknownTypeRaise tok)
        | some c =>
          match payload with
          | [] => .error .indexError
          | p :: _ => (constructObj c p).map some) := by
  have hx : pyFind (tok ++ 32 :: (ds ++ 0 :: payload)) 32 0 = (tok.length : Int) :=
    pyFind_frame_space htok
  have hy : pyFind (tok ++ 32 :: (ds ++ 0 :: payload)) 0 (tok.length : Int) =
      ((tok.length + (ds.length + 1) : Nat) : Int) := pyFind_frame_nul hdig
  have htype : pySlice (tok ++ 32 :: (ds ++ 0 :: payload)) 0 (tok.length : Int) = tok :=
    pySlice_take_prefix tok (32 :: (ds ++ 0 :: payload))
  have hsl : pySlice (tok ++ 32 :: (ds ++ 0 :: payload)) ((tok.length : Int) + 1)
      ((tok.length + (ds.length + 1) : Nat) : Int) = ds :=
    pySlice_frame_digits tok ds (0 :: payload)
  have hint : pyInt ds = .ok (decToNat ds) := pyInt_digits hne hdig
  have hraw : tok ++ 32 :: (ds ++ 0 :: payload) = (tok ++ 32 :: (ds ++ [0])) ++ payload := by
    simp
  have hidx : ((tok.length + (ds.length + 1) : Nat) : Int) + 1 =
      (((tok ++ 32 :: (ds ++ [0])).length : Nat) : Int) := by
    simp only [List.length_append, List.length_cons, List.length_nil]
    push_cast
    omega
  have hget := pyGet_at_append (tok ++ 32 :: (ds ++ [0])) payload
  rw [← hraw, ← hidx] at hget
  have hcond : ((decToNat ds : Int) ≠
      ((tok ++ 32 :: (ds ++ 0 :: payload)).length : Int) -
        ((tok.length + (ds.length + 1) : Nat) : Int) - 1) ↔
      decToNat ds ≠ payload.length := by
    simp only [List.length_append, List.length_cons]
    push_cast
    omega
  have hrd : repo_dir fs (dirFor sha) = .ok (some (dirFor sha)) := by
    unfold repo_dir
    rw [if_pos hdir]
  unfold object_read
  rw [hrd, hfile]
  simp only [zlib_decompress, hx, hy, htype, hsl, hint, hget]
  rw [if_congr hcond rfl rfl]
  by_cases hsz : decToNat ds ≠ payload.length
  · rw [if_pos hsz, if_pos hsz]
  · rw [if_neg hsz, if_neg hsz]
    cases hcls : objClassFor tok with
    | none => rfl
    | some c =>
      cases payload with
      | nil => rfl
      | cons p ps => rfl

theorem serializeVals_ok (key : Bytes) (vs : List PyVal) (h : vs.all isBytesVal = true) :
    ∃ bs, serializeVals key vs = .ok bs := by
  induction vs with
  | nil => exact ⟨[], rfl⟩
  | cons v rest ih =>
    rw [List.all_cons, Bool.and_eq_true] at h
    obtain ⟨bs, hbs⟩ := ih h.2
    cases v with
    | pybytes b =>
      exact ⟨key ++ 32 :: (escapeNl b ++ 10 :: bs), by simp [serializeVals, serializeVal, hbs]⟩
    | pyint n => exact absurd h.1 (by simp [isBytesVal])
    | pylist l => exact absurd h.1 (by simp [isBytesVal])

theorem headerLines_ok (d : Kvlm) (h : ∀ kv ∈ d, wellTypedVal kv.2 = true) :
    ∃ bs, headerLines d = .ok bs := by
  induction d with
  | nil => exact ⟨[], rfl⟩
  | cons kv rest ih =>
    obtain ⟨k, v⟩ := kv
    have hv := h (k, v) (List.mem_cons_self _ _)
    obtain ⟨bs, hbs⟩ := ih (fun kv hkv => h kv (List.mem_cons_of_mem _ hkv))
    cases k with
    | none => exact ⟨bs, by simp [headerLines, hbs]⟩
    | some key =>
      cases v with
      | pybytes b =>
        obtain ⟨line, hline⟩ :=
          serializeVals_ok key [.pybytes b] (by simp [isBytesVal])
        exact ⟨line ++ bs, by simp [headerLines, hline, hbs]⟩
      | pyint n => exact absurd hv (by simp [wellTypedVal])
      | pylist vs =>
        obtain ⟨lines, hlines⟩ :=
          serializeVals_ok key vs (by simpa [wellTypedVal] using hv)
        exact ⟨lines ++ bs, by simp [headerLines, hlines, hbs]⟩

/-- When the first-level directory exists, `object_read` returns Python
`None` exactly when there is no file at the two-level path: every other
outcome on an existing file is an error or a materialized object. -/
theorem object_read_ok_none_iff (fs : FS) (sha : String)
    (hdir : fs.dirs.contains (dirFor sha) = true) :
    (object_read fs sha = .ok none ↔ lookupFile fs (pathFor sha) = none) := by
  have hrd : repo_dir fs (dirFor sha) = .ok (some (dirFor sha)) := by
    unfold repo_dir
    rw [if_pos hdir]
  unfold object_read
  rw [hrd]
  cases hl : lookupFile fs (pathFor sha) with
  | none => simp
  | some raw =>
    simp only [zlib_decompress]
    constructor
    · intro h
      exfalso
      revert h
      split
      · intro h; simp at h
      · split
        · intro h; simp at h
        · generalize objClassFor (pySlice raw 0 (pyFind raw 32 0)) = cls
          cases cls with
          | none => intro h; simp at h
          | some c =>
            generalize pyGet raw (pyFind raw 0 (pyFind raw 32 0) + 1) = pg
            cases pg with
            | error e => intro h; simp at h
            | ok db => cases c <;> intro h <;> simp [constructObj, Except.map] at h
    · intro h
      simp at h

/-! ### The claims -/

/-- C1: the spec's Blob round-trip cannot hold on the code: `object_write`
raises `UnboundLocalError` on line 512 (`object_format` is read on the
right-hand side of its own first assignment) for every payload and every
repository, so no hash is ever returned to read back. -/
theorem C1_blob_roundtrip_blocked (p : Bytes) (fs : FS) :
    object_write (.blob (.pybytes p)) (some fs) = .error .unboundLocalError ∧
    ¬ ∃ sha, object_write (.blob (.pybytes p)) (some fs) = .ok sha := by
  refine ⟨rfl, ?_⟩
  rintro ⟨sha, h⟩
  simp [object_write, obj_serialize] at h

/-- C2: the KVLM round-trip law fails on the code.  Encoding the document
`tree = b'T'`, message `b'msg'` emits only `b'\x0amsg\x0a'` (line 688
rebinds `obj`, discarding the header line), and decoding that output
yields a document whose sole entry binds the message key to the single
`int` 109 (line 753 stores `raw[start + 1]`), which is not the original
document. -/
theorem C2_roundtrip_fails :
    kvlm_serialize exDocTM = .ok [10, 109, 115, 103, 10] ∧
    kvlm_parse 10 [10, 109, 115, 103, 10] 0 [] = .ok [(none, .pyint 109)] ∧
    ([(none, PyVal.pyint 109)] : Kvlm) ≠ exDocTM :=
  ⟨rfl, rfl, by simp [exDocTM]⟩

/-- C3: storing a Blob with payload `b'hello world\x0a'` does not return
the hash `3b18e512dba79e4c8300dd08aeb37f8e728b8dad` (nor any hash):
`object_write` raises `UnboundLocalError` on line 512 before the SHA-1 is
computed, with and without a repository. -/
theorem C3_write_vectorA_raises :
    object_write (.blob (.pybytes helloWorldBytes)) none = .error .unboundLocalError ∧
    ∀ fs : FS, object_write (.blob (.pybytes helloWorldBytes)) (some fs) =
      .error .unboundLocalError :=
  ⟨rfl, fun _ => rfl⟩

/-- C4: decoding concrete vector B yields `tree = b'T'` (scalar) and
`parent = [b'P1', b'P2']` (ordered list) as claimed, but the message slot
holds the single `int` 109 (the byte `m`, from `raw[start + 1]` on
line 753) instead of the byte string `b'msg\x0a'`. -/
theorem C4_vectorB_message_truncated :
    kvlm_parse 10 vecB 0 [] =
      .ok [(some tokTree, .pybytes [84]),
           (some kParent, .pylist [.pybytes [80, 49], .pybytes [80, 50]]),
           (none, .pyint 109)] ∧
    PyVal.pyint 109 ≠ PyVal.pybytes [109, 115, 103, 10] :=
  ⟨rfl, by simp⟩

/-- C5: `kvlm_serialize` does not emit the header lines: on the document
`tree = b'T'`, message `b'msg'` it returns `b'\x0amsg\x0a'` — line 688
rebinds `obj` instead of appending, so the output is not the
`b'tree T\x0a\x0amsg\x0a'` that the claimed per-field emission rule
prescribes. -/
theorem C5_serialize_drops_header_lines :
    kvlm_serialize exDocTM = .ok [10, 109, 115, 103, 10] ∧
    ([10, 109, 115, 103, 10] : Bytes) ≠
      [116, 114, 101, 101, 32, 84, 10, 10, 109, 115, 103, 10] :=
  ⟨rfl, by decide⟩

/-- C7: persisting never writes (once, twice, or at all): `object_write`
raises before touching the store, so no call returns a hash for any
object and any repository. -/
theorem C7_persist_never_writes (obj : GitObj) (repo : Option FS) :
    ∀ sha, object_write obj repo ≠ .ok sha := by
  intro sha h
  cases obj with
  | blob d => simp [object_write, obj_serialize] at h
  | commit k =>
    cases hk : kvlm_serialize k <;> simp [object_write, obj_serialize, hk] at h
  | tree => simp [object_write, obj_serialize] at h
  | tag => simp [object_write, obj_serialize] at h

/-- C6 (counterexample): three concrete refutations of the claim as
stated.  (i) On frame `b'xyz 1\x00ab'` (hash `abzz`) the token is
outside the set yet the read fails with the `bad length` Corruption
error — the length check runs first.  (ii) On frame `b'\xff 1\x00a'`
(hash `efyy`) the token is outside the set and the length matches, yet
the read fails with `UnicodeDecodeError` (line 468's f-string decodes
the token as ASCII before the exception is built), not UnknownType.
(iii) On an empty filesystem no file exists at the two-level path for
hash `cdxx`, yet the read raises `TypeError` (`repo_file` returns
`None`, `os.path.isfile(None)` raises) instead of returning the absent
result. -/
theorem C6_counterexamples :
    (object_read fsC6 "abzz" = .error .exceptionMalformed ∧
     pySlice frameBad 0 (pyFind frameBad 32 0) ∉ [tokBlob, tokCommit, tokTree, tokTag] ∧
     PyErr.exceptionMalformed ≠ PyErr.exceptionUnknownType) ∧
    (object_read fsFF "efyy" = .error .unicodeDecodeError ∧
     pySlice frameFF 0 (pyFind frameFF 32 0) ∉ [tokBlob, tokCommit, tokTree, tokTag] ∧
     decToNat (pySlice frameFF (pyFind frameFF 32 0 + 1)
       (pyFind frameFF 0 (pyFind frameFF 32 0))) = 1 ∧
     PyErr.unicodeDecodeError ≠ PyErr.exceptionUnknownType) ∧
    (lookupFile fsEmpty (pathFor "cdxx") = none ∧
     object_read fsEmpty "cdxx" = .error .typeError ∧
     (Except.error PyErr.typeError : Except PyErr (Option GitObj)) ≠ Except.ok none) :=
  ⟨⟨rfl, by decide, by decide⟩, ⟨rfl, by decide, by decide, by decide⟩, ⟨rfl, rfl, by simp⟩⟩

/-- C6 (amended): when the first-level directory for the hash is missing
entirely, `repo_file` returns `None` and `os.path.isfile(None)` raises
`TypeError` instead of reporting absence.  When that directory exists,
`object_read` returns the absent result exactly when no file exists at
the two-level path; and on an existing file holding a frame with a
well-formed header it fails as Corruption (`bad length`) exactly when
the remaining byte count after the NUL differs from the parsed decimal
length — the length check runs first, so Corruption wins when the type
is also bad — fails as UnknownType exactly when the length check passes,
the type token is outside {blob, commit, tree, tag} AND the token is
pure ASCII, and fails as UnicodeDecodeError exactly when the length
check passes, the token is outside the set and it contains a byte above
127 (line 468's f-string decodes the token before raising). -/
theorem C6_read_error_taxonomy (fs : FS) (sha : String) :
    (fs.dirs.contains (dirFor sha) = false →
      (fs.files.map (fun e => e.1)).contains (dirFor sha) = false →
      object_read fs sha = .error .typeError) ∧
    (fs.dirs.contains (dirFor sha) = true →
      (object_read fs sha = .ok none ↔ lookupFile fs (pathFor sha) = none) ∧
      (∀ tok ds payload,
        lookupFile fs (pathFor sha) = some (tok ++ 32 :: (ds ++ 0 :: payload)) →
        32 ∉ tok → ds ≠ [] → (∀ c ∈ ds, 48 ≤ c ∧ c ≤ 57) →
        ((object_read fs sha = .error .exceptionMalformed ↔
            decToNat ds ≠ payload.length) ∧
         (object_read fs sha = .error .exceptionUnknownType ↔
            (decToNat ds = payload.length ∧
              tok ∉ [tokBlob, tokCommit, tokTree, tokTag] ∧
              ∀ c ∈ tok, c < 128)) ∧
         (object_read fs sha = .error .unicodeDecodeError ↔
            (decToNat ds = payload.length ∧
              tok ∉ [tokBlob, tokCommit, tokTree, tokTag] ∧
              ∃ c ∈ tok, 128 ≤ c))))) := by
  constructor
  · intro h1 h2
    unfold object_read repo_dir
    rw [if_neg (by rw [h1]; exact Bool.false_ne_true),
      if_neg (by rw [h2]; exact Bool.false_ne_true)]
  · intro hdir
    refine ⟨object_read_ok_none_iff fs sha hdir, ?_⟩
    intro tok ds payload hfile htok hne hdig
    rw [object_read_frame fs sha tok ds payload hdir hfile htok hne hdig]
    by_cases hsz : decToNat ds = payload.length
    · rw [if_neg (by simpa using hsz)]
      cases hcls : objClassFor tok with
      | none =>
        have hmem : tok ∉ [tokBlob, tokCommit, tokTree, tokTag] :=
          (objClassFor_none_iff tok).mp hcls
        cases hasc : tok.any (fun c => decide (128 ≤ c)) with
        | true =>
          have hex : ∃ c ∈ tok, 128 ≤ c := by
            simpa using List.any_eq_true.mp hasc
          have hnotall : ¬ ∀ c ∈ tok, c < 128 := by
            obtain ⟨c, hc, hc128⟩ := hex
            exact fun hall => absurd (hall c hc) (by omega)
          rw [show unknownTypeRaise tok = .unicodeDecodeError from by
            unfold unknownTypeRaise
            rw [if_pos hasc]]
          refine ⟨⟨fun h => by simp at h, fun h => absurd hsz h⟩,
                  ⟨fun h => by simp at h, fun h => absurd h.2.2 hnotall⟩,
                  ⟨fun _ => ⟨hsz, hmem, hex⟩, fun _ => rfl⟩⟩
        | false =>
          have hall : ∀ c ∈ tok, c < 128 := by
            intro c hc
            have h := List.any_eq_false.mp hasc c hc
            simp only [decide_eq_true_eq] at h
            omega
          have hnotex : ¬ ∃ c ∈ tok, 128 ≤ c := by
            rintro ⟨c, hc, h128⟩
            exact absurd (hall c hc) (by omega)
          rw [show unknownTypeRaise tok = .exceptionUnknownType from by
            unfold unknownTypeRaise
            rw [if_neg (by simp [hasc])]]
          refine ⟨⟨fun h => by simp at h, fun h => absurd hsz h⟩,
                  ⟨fun _ => ⟨hsz, hmem, hall⟩, fun _ => rfl⟩,
                  ⟨fun h => by simp at h, fun h => absurd h.2.2 hnotex⟩⟩
      | some c =>
        have hmem : ¬ tok ∉ [tokBlob, tokCommit, tokTree, tokTag] := fun hm => by
          rw [(objClassFor_none_iff tok).mpr hm] at hcls
          cases hcls
        cases payload with
        | nil =>
          refine ⟨⟨fun h => by simp at h, fun h => absurd hsz h⟩,
                  ⟨fun h => by simp at h, fun h => absurd h.2.1 hmem⟩,
                  ⟨fun h => by simp at h, fun h => absurd h.2.1 hmem⟩⟩
        | cons p ps =>
          refine ⟨⟨fun h => ?_, fun h => absurd hsz h⟩,
                  ⟨fun h => ?_, fun h => absurd h.2.1 hmem⟩,
                  ⟨fun h => ?_, fun h => absurd h.2.1 hmem⟩⟩ <;>
            (cases c <;> simp [constructObj, Except.map] at h)
    · rw [if_pos (by simpa using hsz)]
      exact ⟨⟨fun _ => hsz, fun _ => rfl⟩,
             ⟨fun h => by simp at h, fun h => absurd h.1 hsz⟩,
             ⟨fun h => by simp at h, fun h => absurd h.1 hsz⟩⟩

/-- Witness for C6 (amended): the theorem applied at the concrete store
`fsC6` and hash `abzz`, with the directory hypothesis and every
frame-side hypothesis discharged at the frame `b'xyz 1\x00ab'`. -/
theorem C6_read_error_taxonomy_witness :
    (fsC6.dirs.contains (dirFor "abzz") = true ∧
     lookupFile fsC6 (pathFor "abzz") =
       some ([120, 121, 122] ++ 32 :: ([49] ++ 0 :: [97, 98])) ∧
     32 ∉ ([120, 121, 122] : Bytes) ∧ ([49] : Bytes) ≠ [] ∧
     (∀ c ∈ ([49] : Bytes), 48 ≤ c ∧ c ≤ 57)) ∧
    ((object_read fsC6 "abzz" = .error .exceptionMalformed ↔
        decToNat [49] ≠ ([97, 98] : Bytes).length) ∧
     (object_read fsC6 "abzz" = .error .exceptionUnknownType ↔
        (decToNat [49] = ([97, 98] : Bytes).length ∧
          ([120, 121, 122] : Bytes) ∉ [tokBlob, tokCommit, tokTree, tokTag] ∧
          ∀ c ∈ ([120, 121, 122] : Bytes), c < 128)) ∧
     (object_read fsC6 "abzz" = .error .unicodeDecodeError ↔
        (decToNat [49] = ([97, 98] : Bytes).length ∧
          ([120, 121, 122] : Bytes) ∉ [tokBlob, tokCommit, tokTree, tokTag] ∧
          ∃ c ∈ ([120, 121, 122] : Bytes), 128 ≤ c))) :=
  ⟨⟨rfl, rfl, by decide, by decide, by decide⟩,
   ((C6_read_error_taxonomy fsC6 "abzz").2 rfl).2 [120, 121, 122] [49] [97, 98]
     rfl (by decide) (by decide) (by decide)⟩

/-- C8: a stored, well-framed object whose type token is `tree` or `tag`
is never materialized by `object_read`: the call raises — with
`Exception("Unimplemented!")` from the inherited base `deserialize` when
the payload is nonempty, and with the `IndexError` from `raw[y + 1]`
when it is empty. -/
theorem C8_tree_tag_never_materialize (fs : FS) (sha : String) (tok ds payload : Bytes)
    (hdir : fs.dirs.contains (dirFor sha) = true)
    (hfile : lookupFile fs (pathFor sha) = some (tok ++ 32 :: (ds ++ 0 :: payload)))
    (htok : tok = tokTree ∨ tok = tokTag)
    (hne : ds ≠ []) (hdig : ∀ c ∈ ds, 48 ≤ c ∧ c ≤ 57)
    (hsz : decToNat ds = payload.length) :
    (object_read fs sha = .error .exceptionUnimplemented ∨
     object_read fs sha = .error .indexError) ∧
    ∀ obj, object_read fs sha ≠ .ok (some obj) := by
  have h32 : 32 ∉ tok := by
    rcases htok with h | h <;> subst h <;> decide
  rw [object_read_frame fs sha tok ds payload hdir hfile h32 hne hdig,
    if_neg (by simpa using hsz)]
  rcases htok with h | h <;> subst h
  · rw [show objClassFor tokTree = some GitClass.treeC from rfl]
    cases payload with
    | nil => exact ⟨Or.inr rfl, fun obj h => by simp at h⟩
    | cons p ps => exact ⟨Or.inl rfl, fun obj h => by simp [constructObj, Except.map] at h⟩
  · rw [show objClassFor tokTag = some GitClass.tagC from rfl]
    cases payload with
    | nil => exact ⟨Or.inr rfl, fun obj h => by simp at h⟩
    | cons p ps => exact ⟨Or.inl rfl, fun obj h => by simp [constructObj, Except.map] at h⟩

/-- Witness for C8 at the concrete store `fsTree` (frame
`b'tree 1\x00a'`) and hash `cdxx`. -/
theorem C8_tree_tag_never_materialize_witness :
    (fsTree.dirs.contains (dirFor "cdxx") = true ∧
     lookupFile fsTree (pathFor "cdxx") = some (tokTree ++ 32 :: ([49] ++ 0 :: [97])) ∧
     (tokTree = tokTree ∨ tokTree = tokTag) ∧ ([49] : Bytes) ≠ [] ∧
     (∀ c ∈ ([49] : Bytes), 48 ≤ c ∧ c ≤ 57) ∧
     decToNat [49] = ([97] : Bytes).length) ∧
    ((object_read fsTree "cdxx" = .error .exceptionUnimplemented ∨
      object_read fsTree "cdxx" = .error .indexError) ∧
     ∀ obj, object_read fsTree "cdxx" ≠ .ok (some obj)) :=
  ⟨⟨rfl, rfl, Or.inl rfl, by decide, by decide, rfl⟩,
   C8_tree_tag_never_materialize fsTree "cdxx" tokTree [49] [97] rfl rfl
     (Or.inl rfl) (by decide) (by decide) rfl⟩

/-- C9: on any input containing neither a space nor a newline (the empty
string included), `kvlm_parse` from offset 0 hits the header-end branch
with `new_line = -1 ≠ 0 = start` and raises `AssertionError`. -/
theorem C9_headerless_input_asserts (raw : Bytes) (fuel : Nat)
    (h32 : 32 ∉ raw) (h10 : 10 ∉ raw) :
    kvlm_parse (fuel + 1) raw 0 [] = .error .assertionError := by
  have hs : pyFind raw 32 0 = -1 := by
    simp [pyFind, pyIdx, bfind0_of_notMem h32]
  have hn : pyFind raw 10 0 = -1 := by
    simp [pyFind, pyIdx, bfind0_of_notMem h10]
  simp [kvlm_parse, hs, hn]

/-- Witness for C9 at the empty input. -/
theorem C9_headerless_input_asserts_witness :
    (32 ∉ ([] : Bytes)) ∧ (10 ∉ ([] : Bytes)) ∧
    kvlm_parse 1 [] 0 [] = .error .assertionError :=
  ⟨by simp, by simp, C9_headerless_input_asserts [] 0 (by simp) (by simp)⟩

/-- C10: on any KVLM document with byte-string (or list-of-byte-string)
field values and no message key, the header loop of `kvlm_serialize`
succeeds and the unconditional `kvlm[None]` on line 688 then raises
`KeyError` — in particular on the empty document of `GitCommit.init()`. -/
theorem C10_missing_message_raises_keyError (d : Kvlm)
    (hw : ∀ kv ∈ d, wellTypedVal kv.2 = true)
    (hm : dictFind d none = none) :
    kvlm_serialize d = .error .keyError := by
  obtain ⟨bs, hbs⟩ := headerLines_ok d hw
  simp [kvlm_serialize, hbs, hm]

/-- Witness for C10 at the document produced by `GitCommit.init()`. -/
theorem C10_missing_message_raises_keyError_witness :
    ((∀ kv ∈ GitCommit_init, wellTypedVal kv.2 = true) ∧
      dictFind GitCommit_init none = none) ∧
    kvlm_serialize GitCommit_init = .error .keyError :=
  ⟨⟨by simp [GitCommit_init], rfl⟩,
   C10_missing_message_raises_keyError GitCommit_init (by simp [GitCommit_init]) rfl⟩

end Wyag
